import Mathlib

/-!
# Verification of the PDF RAG service (`app/app.py`)

Shallow embedding of the chunking, ingestion, document-store and
lexical-ranking logic of `app/app.py`, together with theorems settling
the specification claims about it.

Conventions:
* Python strings are `String`; Python indexes/slices strings by code
  point, which matches `String.data : List Char`.  The Python string
  primitives used by the code (`lower`, `split`, `strip`, `endswith`,
  `join`, slicing) are embedded as structurally recursive functions on
  `String.data` below, so that every definition evaluates by kernel
  reduction.
* Python `int` parameters that may go negative (`chunk_size`, `overlap`,
  `top_k`) are `Int`; sizes and scores are `Nat`.
* Raw uploaded bytes are `List Nat`; only their length matters here.
* External collaborators (PyPDF2 extraction, byte decoding, the Ollama
  HTTP gateway) are parameters of the embedded functions.
* Fallible handlers return `Except`; an `Except.error` models a FastAPI
  `HTTPException` (or an uncaught Python exception, for `valueError`).
-/

deriving instance DecidableEq for Except

namespace PdfRag

/-! ## Python string primitives -/

/-- The whitespace characters recognised by Python's `str.split()` /
`str.strip()` (ASCII part). -/
def isPySpace (c : Char) : Bool :=
  c == ' ' || c == '\t' || c == '\n' || c == '\r' ||
    c == '\x0b' || c == '\x0c'

/-- Python `s.lower()` (ASCII case folding, as in `Char.toLower`). -/
def pyLower (s : String) : String :=
  ⟨s.data.map Char.toLower⟩

/-- Python `s.strip()`: remove leading and trailing whitespace. -/
def pyStrip (s : String) : String :=
  ⟨((s.data.dropWhile isPySpace).reverse.dropWhile isPySpace).reverse⟩

/-- Helper for `pySplit`: `acc` is the current word, reversed. -/
def pySplitAux : List Char → List Char → List String
  | [], [] => []
  | [], acc => [⟨acc.reverse⟩]
  | c :: cs, acc =>
    if isPySpace c then
      match acc with
      | [] => pySplitAux cs []
      | _ => ⟨acc.reverse⟩ :: pySplitAux cs []
    else pySplitAux cs (c :: acc)

/-- Python `s.split()` (no argument): split on runs of whitespace,
never producing empty words. -/
def pySplit (s : String) : List String :=
  pySplitAux s.data []

/-- Python `s.endswith(suffix)`. -/
def pyEndsWith (s suffix : String) : Bool :=
  suffix.data.isSuffixOf s.data

/-- Python `sep.join(l)`. -/
def pyJoin (sep : String) : List String → String
  | [] => ""
  | [x] => x
  | x :: xs => x ++ sep ++ pyJoin sep xs

/-- Python slice `s[:n]` on a string (by code points). -/
def pyStrTake (s : String) (n : Nat) : String :=
  ⟨s.data.take n⟩

/-! ## Data model and chunking -/

/-- A chunk record as built by `ingest_document` / `load_initial_document`:
`{"id": ..., "text": ..., "filename": ...}`. -/
structure Chunk where
  id : Nat
  text : String
  filename : String
deriving DecidableEq, Repr

/-- Python `range(0, stop, step)` for a positive `step`: the list
`[0, step, 2*step, ...]` of all multiples of `step` below `stop`.
It has exactly `⌈stop / step⌉` elements. -/
def pyRangeUp (stop step : Nat) : List Nat :=
  (List.range ((stop + step - 1) / step)).map (· * step)

/-- Python slice `text[i : i+C]` (by code points, clipped at the end). -/
def chunkWindow (text : String) (i C : Nat) : String :=
  ⟨(text.data.drop i).take C⟩

/-- The chunk windows produced by the loop
`for i in range(0, len(text), step): chunk = text[i : i+C]`
for a positive `step`, before the `chunk.strip()` filter. -/
def chunkList (text : String) (step C : Nat) : List String :=
  (pyRangeUp text.length step).map (fun i => chunkWindow text i C)

/-- Error raised while chunking: Python raises
`ValueError: range() arg 3 must not be zero` when the step is zero. -/
inductive ChunkError where
  | valueError
deriving DecidableEq, Repr

/-- The chunking loop of `ingest_document` (lines 136-137) with Python
`int` parameters: step `chunk_size - overlap`.  A zero step makes
`range` raise `ValueError`; a negative step makes `range(0, len, step)`
empty, so no chunks are produced. -/
def chunkStrings (text : String) (chunk_size overlap : Int) :
    Except ChunkError (List String) :=
  let step := chunk_size - overlap
  if step = 0 then .error .valueError
  else if step < 0 then .ok []
  else .ok (chunkList text step.toNat chunk_size.toNat)

/-- Chunk records built from the raw windows: each window passing
`if chunk.strip():` becomes a record with
`id = len(documents) + len(chunks so far)`.  `k` is the number of
records already built in this batch. -/
def mkChunks (storeLen : Nat) (filename : String) :
    List String → Nat → List Chunk
  | [], _ => []
  | c :: cs, k =>
    if pyStrip c ≠ "" then
      ⟨storeLen + k, c, filename⟩ :: mkChunks storeLen filename cs (k + 1)
    else
      mkChunks storeLen filename cs k

/-- `file.filename.lower().endswith((".txt", ".pdf", ".md"))`. -/
def hasAllowedExt (filename : String) : Bool :=
  let f := pyLower filename
  pyEndsWith f ".txt" || pyEndsWith f ".pdf" || pyEndsWith f ".md"

/-- Errors of the `/ingest` handler: the two `HTTPException(400, ...)`
cases ("Unsupported file type", "File too large"), and the uncaught
`ValueError` from a zero chunking step. -/
inductive IngestError where
  | unsupportedFileType
  | payloadTooLarge
  | valueError
deriving DecidableEq, Repr

/-- The `/ingest` handler (lines 112-154).  `extractPdf` and
`decodeBytes` are the external text-extraction collaborators (PyPDF2,
UTF-8/Latin-1 decoding).  On success returns the updated store and the
reported chunk count. -/
def ingest_document (extractPdf decodeBytes : List Nat → String)
    (filename : String) (content : List Nat) (chunk_size overlap : Int)
    (documents : List Chunk) : Except IngestError (List Chunk × Nat) :=
  if ¬ hasAllowedExt filename then .error .unsupportedFileType
  else if content.length > 50 * 1024 * 1024 then .error .payloadTooLarge
  else
    let text :=
      if pyEndsWith (pyLower filename) ".pdf" then extractPdf content
      else decodeBytes content
    match chunkStrings text chunk_size overlap with
    | .error _ => .error .valueError
    | .ok raw =>
      let chunks := mkChunks documents.length filename raw 0
      .ok (documents ++ chunks, chunks.length)

/-- `load_initial_document` (lines 37-72): startup load of
`fake_document.pdf` with `chunk_size = 500`, `overlap = 100`.
`pdfFile = none` models a missing file (store unchanged); a failure of
the extraction collaborator is modelled by `extractPdf` returning `""`
(the handler then returns with the store unchanged). -/
def load_initial_document (extractPdf : List Nat → String)
    (pdfFile : Option (List Nat)) (documents : List Chunk) : List Chunk :=
  match pdfFile with
  | none => documents
  | some content =>
    let text := extractPdf content
    if pyStrip text = "" then documents
    else
      documents ++
        mkChunks documents.length "fake_document.pdf"
          (chunkList text (500 - 100) 500) 0

/-! ## Lexical ranking and the `/query` handler -/

/-- `set(s.lower().split())`: lower-case, split on whitespace runs,
collect the distinct words. -/
def wordSet (s : String) : Finset String :=
  (pySplit (pyLower s)).toFinset

/-- `len(question_words & doc_words)` for one stored chunk. -/
def chunkScore (question : String) (c : Chunk) : Nat :=
  (wordSet question ∩ wordSet c.text).card

/-- The `scored_chunks` list (lines 165-171): every stored chunk paired
with its overlap score, keeping only positive scores, in store order. -/
def scoredChunks (documents : List Chunk) (question : String) :
    List (Chunk × Nat) :=
  (documents.map (fun d => (d, chunkScore question d))).filter
    (fun p => decide (0 < p.2))

/-- The ordering used by `scored_chunks.sort(key=lambda x: x[1],
reverse=True)`: `a` may precede `b` iff `a`'s score is ≥ `b`'s. -/
def scoreRel (a b : Chunk × Nat) : Prop := b.2 ≤ a.2

instance : DecidableRel scoreRel := fun a b => Nat.decLe b.2 a.2

instance : IsTotal (Chunk × Nat) scoreRel :=
  ⟨fun a b => (Nat.le_total b.2 a.2).elim Or.inl Or.inr⟩

instance : IsTrans (Chunk × Nat) scoreRel :=
  ⟨fun _ _ _ h1 h2 => Nat.le_trans h2 h1⟩

/-- Python's `list.sort(key=..., reverse=True)` is the stable descending
sort by key; insertion sort with `scoreRel` is that sort (stability is
proved below: `sortDesc_filter_score`). -/
def sortDesc (l : List (Chunk × Nat)) : List (Chunk × Nat) :=
  List.insertionSort scoreRel l

/-- Python slice `l[:k]` for an arbitrary `int` bound `k`: a negative
bound counts from the end (clamped at 0). -/
def pySliceTo {α : Type} (l : List α) (k : Int) : List α :=
  if 0 ≤ k then l.take k.toNat
  else l.take ((l.length : Int) + k).toNat

/-- `top_chunks` (lines 173-175): sort by score descending (stable),
slice to `top_k`, keep the chunk records. -/
def topChunks (documents : List Chunk) (question : String)
    (top_k : Int) : List Chunk :=
  (pySliceTo (sortDesc (scoredChunks documents question)) top_k).map
    Prod.fst

/-- `context = "\n\n".join([chunk["text"] for chunk in top_chunks])`. -/
def queryContext (documents : List Chunk) (question : String)
    (top_k : Int) : String :=
  pyJoin "\n\n" ((topChunks documents question top_k).map Chunk.text)

/-- Body of `POST /query` (`QueryRequest`, lines 86-89). -/
structure QueryRequest where
  question : String
  top_k : Int := 3
  temperature : Float := 0.3

/-- The JSON payload sent to `POST {OLLAMA_URL}/api/generate`
(lines 185-189). -/
structure GatewayRequest where
  model : String
  prompt : String
  stream : Bool
deriving DecidableEq, Repr

/-- Outcome of the gateway HTTP call: a response with a status code and
an optional `"response"` field, or a raised transport-level exception
with its message. -/
inductive GatewayOutcome where
  | response (status : Nat) (body : Option String)
  | transportError (message : String)

/-- Error of the `/query` handler: `HTTPException(400, "Question cannot
be empty")`. -/
inductive QueryError where
  | badRequest
deriving DecidableEq, Repr

/-- The JSON body returned by `POST /query` (lines 200-206). -/
structure QueryResponse where
  question : String
  answer : String
  context_chunks : Nat
  inference_time_ms : Nat
  model : String
deriving DecidableEq, Repr

/-- The prompt `f"Context: {context}\n\nQuestion: {question}\n\nAnswer:"`. -/
def mkPrompt (context question : String) : String :=
  "Context: " ++ context ++ "\n\nQuestion: " ++ question ++ "\n\nAnswer:"

/-- The `/query` handler (lines 157-206).  `gw` is the outcome of the
gateway call.  On success returns both the gateway payload that was sent
and the JSON response body. -/
def query_document (documents : List Chunk) (req : QueryRequest)
    (gw : GatewayOutcome) :
    Except QueryError (GatewayRequest × QueryResponse) :=
  if pyStrip req.question = "" then .error .badRequest
  else
    let top := topChunks documents req.question req.top_k
    let context := pyJoin "\n\n" (top.map Chunk.text)
    let payload : GatewayRequest :=
      ⟨"qwen2.5:0.5b", mkPrompt context req.question, false⟩
    let answer :=
      match gw with
      | .response 200 (some r) => r
      | .response 200 none => "No response generated"
      | .response _ _ => "Error calling LLM"
      | .transportError e =>
        "LLM error: " ++ e ++ ". Context preview: " ++
          pyStrTake context 200 ++ "..."
    .ok (payload, ⟨req.question, answer, top.length, 0, "llama3.2:1b"⟩)

/-- The chunk-count formula stated by the spec:
`ceil(max(0, L-O) / (C-O))`, as natural-number ceiling division.
(Modelled from the spec's words, for comparison with `chunkStrings`.) -/
def specChunkCount (L C O : Nat) : Nat :=
  (max 0 (L - O) + ((C - O) - 1)) / (C - O)

end PdfRag

namespace PdfRag

/-! ## Helper lemmas -/

/-- Every record built by `mkChunks` passed the `if chunk.strip():`
test, so its text is non-empty after stripping. -/
theorem mem_mkChunks_strip (storeLen : Nat) (fname : String)
    (raw : List String) : ∀ (k : Nat) (c : Chunk),
    c ∈ mkChunks storeLen fname raw k → pyStrip c.text ≠ "" := by
  induction raw with
  | nil => intro k c h; simp [mkChunks] at h
  | cons r rs ih =>
    intro k c h
    rw [mkChunks] at h
    split at h
    · rcases List.mem_cons.mp h with rfl | h2
      · simpa using (by assumption : pyStrip r ≠ "")
      · exact ih _ _ h2
    · exact ih _ _ h

/-- Stability of one insertion step: inserting `x` with `orderedInsert
scoreRel` puts it before exactly the strictly lower-scored suffix, so
the sublist of entries at any fixed score `s` gains `x` at the front
when `x` has score `s` and is unchanged otherwise. -/
theorem filter_orderedInsert_score (x : Chunk × Nat)
    (m : List (Chunk × Nat)) (s : Nat) :
    (List.orderedInsert scoreRel x m).filter (fun p => p.2 == s) =
      if x.2 = s then x :: m.filter (fun p => p.2 == s)
      else m.filter (fun p => p.2 == s) := by
  induction m with
  | nil => by_cases h : x.2 = s <;> simp [List.orderedInsert, h]
  | cons y ys ih =>
    simp only [List.orderedInsert]
    by_cases hxy : scoreRel x y
    · rw [if_pos hxy]
      by_cases h : x.2 = s <;> simp [List.filter_cons, h]
    · rw [if_neg hxy]
      have hlt : x.2 < y.2 := Nat.lt_of_not_le hxy
      by_cases hy : y.2 = s
      · have hx : x.2 ≠ s := by omega
        simp [List.filter_cons, hy, hx, ih]
      · by_cases hx : x.2 = s <;> simp [List.filter_cons, hy, hx, ih]

/-- Stability of the sort used for ranking: for every score `s`, the
entries of score `s` appear in `sortDesc l` in exactly the order they
have in `l` (this is the tie-break policy of Python's stable
`list.sort(..., reverse=True)`). -/
theorem sortDesc_filter_score (l : List (Chunk × Nat)) (s : Nat) :
    (sortDesc l).filter (fun p => p.2 == s) =
      l.filter (fun p => p.2 == s) := by
  induction l with
  | nil => rfl
  | cons x xs ih =>
    simp only [sortDesc, List.insertionSort] at ih ⊢
    rw [filter_orderedInsert_score]
    by_cases h : x.2 = s <;> simp [List.filter_cons, h, ih]

end PdfRag

namespace PdfRag

/-! ## Claim theorems -/

/-- **C1, counterexample.**  The spec's chunk-count formula
`ceil(max(0, L-O) / (C-O))` does not match the loop
`for i in range(0, len(text), chunk_size - overlap)`: for the text
`"a"` (length 1) with `chunk_size = 2`, `overlap = 1` (so `0 ≤ O < C`),
the loop produces 1 raw chunk while the formula gives 0. -/
theorem chunkCount_claim_fails :
    (chunkStrings "a" 2 1).map List.length = .ok 1 ∧
    specChunkCount "a".length 2 1 = 0 ∧
    (chunkStrings "a" 2 1).map List.length ≠
      .ok (specChunkCount "a".length 2 1) := by
  decide

/-- **C1, amended.**  For `0 ≤ O < C`, the chunking loop produces
exactly `ceil(L / (C-O))` raw chunks (before the `strip()` filter),
not `ceil(max(0, L-O) / (C-O))`. -/
theorem chunkCount_eq_ceil (text : String) (C O : Nat) (h : O < C) :
    (chunkStrings text (C : Int) (O : Int)).map List.length =
      .ok ((text.length + (C - O) - 1) / (C - O)) := by
  have hne : ¬ ((C : Int) - (O : Int) = 0) := by omega
  have hnl : ¬ ((C : Int) - (O : Int) < 0) := by omega
  have htn : ((C : Int) - (O : Int)).toNat = C - O := by omega
  simp [chunkStrings, hne, hnl, htn, chunkList, pyRangeUp, Except.map]

/-- Witness for `chunkCount_eq_ceil` at `text = "abc"`, `C = 2`,
`O = 1`: three raw chunks. -/
theorem chunkCount_eq_ceil_witness :
    (1 : Nat) < 2 ∧
    (chunkStrings "abc" (2 : Int) (1 : Int)).map List.length =
      .ok (("abc".length + (2 - 1) - 1) / (2 - 1)) :=
  ⟨by decide, chunkCount_eq_ceil "abc" 2 1 (by decide)⟩

/-- **C2 (code bug).**  The code never raises an `InvalidConfiguration`
error for `overlap ≥ chunk_size`.  With `overlap = chunk_size` the step
of `range` is zero and Python raises an uncaught `ValueError`; with
`overlap > chunk_size` the step is negative, `range(0, len, step)` is
empty, and ingestion silently succeeds with zero chunks (here on a
store left equal to `[]`). -/
theorem overlap_ge_chunkSize_no_invalidConfiguration :
    chunkStrings "hello" 100 100 = .error .valueError ∧
    chunkStrings "hello" 100 150 = .ok [] ∧
    ingest_document (fun _ => "") (fun _ => "some text") "a.txt"
        [104, 105] 100 150 [] = .ok ([], 0) := by
  decide

/-- **C3, counterexample.**  An oversized payload is not rejected with
`PayloadTooLarge` "regardless of the declared filename": the extension
check runs first, so an oversized upload named `"a.exe"` fails with
`UnsupportedFileType` instead. -/
theorem oversize_bad_extension_not_payloadTooLarge :
    (List.replicate (50 * 1024 * 1024 + 1) (0 : Nat)).length >
      50 * 1024 * 1024 ∧
    ingest_document (fun _ => "") (fun _ => "") "a.exe"
        (List.replicate (50 * 1024 * 1024 + 1) 0) 500 100 [] =
      .error .unsupportedFileType ∧
    (Except.error IngestError.unsupportedFileType :
        Except IngestError (List Chunk × Nat)) ≠
      .error .payloadTooLarge := by
  refine ⟨by rw [List.length_replicate]; norm_num, ?_, by decide⟩
  unfold ingest_document
  rw [if_pos]
  decide

/-- **C3, amended.**  For every payload above 50 MiB whose filename has
an accepted extension, ingestion fails with `PayloadTooLarge` before
any processing: the result is the same error for every extraction and
decoding collaborator, and the store is not extended. -/
theorem oversize_payload_rejected
    (extractPdf decodeBytes : List Nat → String) (filename : String)
    (content : List Nat) (chunk_size overlap : Int)
    (documents : List Chunk) (hext : hasAllowedExt filename = true)
    (hsize : content.length > 50 * 1024 * 1024) :
    ingest_document extractPdf decodeBytes filename content chunk_size
      overlap documents = .error .payloadTooLarge := by
  simp [ingest_document, hext, hsize]

/-- Witness for `oversize_payload_rejected`: a 50 MiB + 1 byte upload
named `"a.txt"`. -/
theorem oversize_payload_rejected_witness :
    hasAllowedExt "a.txt" = true ∧
    (List.replicate (50 * 1024 * 1024 + 1) (0 : Nat)).length >
      50 * 1024 * 1024 ∧
    ingest_document (fun _ => "") (fun _ => "hi") "a.txt"
        (List.replicate (50 * 1024 * 1024 + 1) 0) 500 100 [] =
      .error .payloadTooLarge :=
  ⟨by decide, by rw [List.length_replicate]; norm_num,
    oversize_payload_rejected _ _ _ _ _ _ _ (by decide)
      (by rw [List.length_replicate]; norm_num)⟩

end PdfRag

namespace PdfRag

/-- **C4 (confirmed).**  For `top_k ≥ 0` the query result is the first
`top_k` qualifying chunks after the stable descending sort by overlap
score: the sorted list is descending in score (`scoreRel`-sorted), the
entries at any fixed score `s` keep exactly their store order
(stability), and every qualifying entry has positive score.
Determinism over repeated runs is definitional, since the embedded
ranking is a pure function of the store and the question. -/
theorem ranking_stable_sorted (documents : List Chunk)
    (question : String) (top_k : Int) (s : Nat) (p : Chunk × Nat)
    (hk : 0 ≤ top_k) :
    topChunks documents question top_k =
      ((sortDesc (scoredChunks documents question)).map Prod.fst).take
        top_k.toNat ∧
    List.Sorted scoreRel (sortDesc (scoredChunks documents question)) ∧
    (sortDesc (scoredChunks documents question)).filter
        (fun q => q.2 == s) =
      (scoredChunks documents question).filter (fun q => q.2 == s) ∧
    (p ∈ scoredChunks documents question → 0 < p.2) := by
  refine ⟨?_, ?_, sortDesc_filter_score _ _, ?_⟩
  · unfold topChunks pySliceTo
    rw [if_pos hk, List.map_take]
  · exact List.sorted_insertionSort scoreRel _
  · intro hp
    have := List.of_mem_filter hp
    simpa using this

/-- Witness for `ranking_stable_sorted` on a three-chunk store and the
question `"cat dog"` with `top_k = 2`. -/
theorem ranking_stable_sorted_witness :
    (0 : Int) ≤ 2 ∧
    (topChunks [⟨0, "the cat sat", "d"⟩, ⟨1, "a dog ran fast", "d"⟩,
        ⟨2, "cats and dogs", "d"⟩] "cat dog" 2 =
      ((sortDesc (scoredChunks [⟨0, "the cat sat", "d"⟩,
          ⟨1, "a dog ran fast", "d"⟩, ⟨2, "cats and dogs", "d"⟩]
          "cat dog")).map Prod.fst).take (2 : Int).toNat ∧
    List.Sorted scoreRel (sortDesc (scoredChunks
      [⟨0, "the cat sat", "d"⟩, ⟨1, "a dog ran fast", "d"⟩,
        ⟨2, "cats and dogs", "d"⟩] "cat dog")) ∧
    (sortDesc (scoredChunks [⟨0, "the cat sat", "d"⟩,
        ⟨1, "a dog ran fast", "d"⟩, ⟨2, "cats and dogs", "d"⟩]
        "cat dog")).filter (fun q => q.2 == 1) =
      (scoredChunks [⟨0, "the cat sat", "d"⟩, ⟨1, "a dog ran fast", "d"⟩,
        ⟨2, "cats and dogs", "d"⟩] "cat dog").filter
        (fun q => q.2 == 1) ∧
    ((⟨0, "the cat sat", "d"⟩, 1) ∈ scoredChunks
        [⟨0, "the cat sat", "d"⟩, ⟨1, "a dog ran fast", "d"⟩,
          ⟨2, "cats and dogs", "d"⟩] "cat dog" → 0 < 1)) :=
  ⟨by decide,
    ranking_stable_sorted [⟨0, "the cat sat", "d"⟩,
      ⟨1, "a dog ran fast", "d"⟩, ⟨2, "cats and dogs", "d"⟩]
      "cat dog" 2 1 (⟨0, "the cat sat", "d"⟩, 1) (by decide)⟩

/-- **C5 (confirmed).**  A stored chunk whose lower-cased
whitespace-split word set shares no word with the question's word set
never appears in the query result, for every `top_k`. -/
theorem zero_overlap_never_returned (documents : List Chunk)
    (question : String) (top_k : Int) (doc : Chunk)
    (h : wordSet question ∩ wordSet doc.text = ∅) :
    doc ∉ topChunks documents question top_k := by
  intro hmem
  unfold topChunks at hmem
  obtain ⟨p, hp, hfst⟩ := List.mem_map.mp hmem
  have hp2 : p ∈ sortDesc (scoredChunks documents question) := by
    unfold pySliceTo at hp
    split at hp <;> exact (List.take_sublist _ _).mem hp
  have hp3 : p ∈ scoredChunks documents question :=
    (List.perm_insertionSort scoreRel _).mem_iff.mp hp2
  have hpos : 0 < p.2 := by
    have := List.of_mem_filter hp3
    simpa using this
  have hmm : p ∈ documents.map (fun d => (d, chunkScore question d)) :=
    List.mem_of_mem_filter hp3
  obtain ⟨d, _, hpd⟩ := List.mem_map.mp hmm
  rw [← hpd] at hfst hpos
  simp only at hfst hpos
  rw [hfst, chunkScore, h] at hpos
  simp at hpos

/-- Witness for `zero_overlap_never_returned`: the only stored chunk
shares no word with the question `"gamma"`, so the result omits it even
though `top_k = 5` exceeds the store size. -/
theorem zero_overlap_never_returned_witness :
    wordSet "gamma" ∩ wordSet (Chunk.text ⟨0, "alpha beta", "f"⟩) = ∅ ∧
    (⟨0, "alpha beta", "f"⟩ : Chunk) ∉
      topChunks [⟨0, "alpha beta", "f"⟩] "gamma" 5 :=
  ⟨by decide,
    zero_overlap_never_returned [⟨0, "alpha beta", "f"⟩] "gamma" 5
      ⟨0, "alpha beta", "f"⟩ (by decide)⟩

end PdfRag

namespace PdfRag

/-- **C6 (confirmed).**  The Document Store invariant — every stored
chunk's text is non-empty after stripping whitespace — is preserved by
every ingestion and by the startup load, since both append only chunks
passing the `if chunk.strip():` filter. -/
theorem store_invariant_preserved
    (extractPdf decodeBytes : List Nat → String) (filename : String)
    (content : List Nat) (chunk_size overlap : Int)
    (documents newDocs : List Chunk) (n : Nat)
    (pdfFile : Option (List Nat)) (c c' : Chunk)
    (hinv : ∀ d ∈ documents, pyStrip d.text ≠ "") :
    (ingest_document extractPdf decodeBytes filename content chunk_size
        overlap documents = .ok (newDocs, n) →
      c ∈ newDocs → pyStrip c.text ≠ "") ∧
    (c' ∈ load_initial_document extractPdf pdfFile documents →
      pyStrip c'.text ≠ "") := by
  constructor
  · intro hok hc
    unfold ingest_document at hok
    split at hok
    · exact absurd hok (by simp)
    · split at hok
      · exact absurd hok (by simp)
      · split at hok
        all_goals simp only at hok
        all_goals split at hok
        all_goals
          first
          | (simp only [Except.ok.injEq, Prod.mk.injEq] at hok
             rw [← hok.1] at hc
             rcases List.mem_append.mp hc with h1 | h2
             · exact hinv c h1
             · exact mem_mkChunks_strip _ _ _ _ _ h2)
          | exact absurd hok (by simp)
  · intro hc
    unfold load_initial_document at hc
    rcases pdfFile with _ | content0
    · exact hinv c' hc
    · simp only at hc
      split at hc
      · exact hinv c' hc
      · rcases List.mem_append.mp hc with h1 | h2
        · exact hinv c' h1
        · exact mem_mkChunks_strip _ _ _ _ _ h2

/-- Witness for `store_invariant_preserved`: ingesting
`"hello world"` as `"a.txt"` into an empty store, and loading a
startup document extracted as `" x "`. -/
theorem store_invariant_preserved_witness :
    (∀ d ∈ ([] : List Chunk), pyStrip d.text ≠ "") ∧
    ((ingest_document (fun _ => " x ") (fun _ => "hello world") "a.txt"
        [104] 500 100 [] = .ok ([⟨0, "hello world", "a.txt"⟩], 1) →
      (⟨0, "hello world", "a.txt"⟩ : Chunk) ∈
        [(⟨0, "hello world", "a.txt"⟩ : Chunk)] →
      pyStrip (Chunk.text ⟨0, "hello world", "a.txt"⟩) ≠ "") ∧
    ((⟨0, " x ", "fake_document.pdf"⟩ : Chunk) ∈
        load_initial_document (fun _ => " x ") (some [1]) [] →
      pyStrip (Chunk.text ⟨0, " x ", "fake_document.pdf"⟩) ≠ "")) :=
  ⟨by decide,
    store_invariant_preserved (fun _ => " x ") (fun _ => "hello world")
      "a.txt" [104] 500 100 [] [⟨0, "hello world", "a.txt"⟩] 1
      (some [1]) ⟨0, "hello world", "a.txt"⟩
      ⟨0, " x ", "fake_document.pdf"⟩ (by decide)⟩

end PdfRag

namespace PdfRag

/-- **C7 (confirmed).**  When the gateway call raises a transport-level
failure, a query with a non-empty question still succeeds (an
`Except.ok`, i.e. HTTP 200), and its answer embeds the error message
and the context preview `context[:200]`, whose length is at most 200
characters. -/
theorem transport_failure_degraded (documents : List Chunk)
    (q : String) (k : Int) (t : Float) (e : String)
    (hq : pyStrip q ≠ "") :
    query_document documents ⟨q, k, t⟩ (.transportError e) =
      .ok (⟨"qwen2.5:0.5b", mkPrompt (queryContext documents q k) q,
          false⟩,
        ⟨q, "LLM error: " ++ e ++ ". Context preview: " ++
            pyStrTake (queryContext documents q k) 200 ++ "...",
          (topChunks documents q k).length, 0, "llama3.2:1b"⟩) ∧
    (pyStrTake (queryContext documents q k) 200).length ≤ 200 := by
  constructor
  · simp [query_document, hq, queryContext]
  · have h1 : (pyStrTake (queryContext documents q k) 200).length =
        ((queryContext documents q k).data.take 200).length := rfl
    rw [h1, List.length_take]
    omega

/-- Witness for `transport_failure_degraded`: one stored chunk, the
question `"cat"`, and a gateway failure `"boom"`. -/
theorem transport_failure_degraded_witness :
    pyStrip "cat" ≠ "" ∧
    (query_document [⟨0, "cat", "d"⟩] ⟨"cat", 3, 0.3⟩
        (.transportError "boom") =
      .ok (⟨"qwen2.5:0.5b",
          mkPrompt (queryContext [⟨0, "cat", "d"⟩] "cat" 3) "cat",
          false⟩,
        ⟨"cat", "LLM error: " ++ "boom" ++ ". Context preview: " ++
            pyStrTake (queryContext [⟨0, "cat", "d"⟩] "cat" 3) 200 ++
            "...",
          (topChunks [⟨0, "cat", "d"⟩] "cat" 3).length, 0,
          "llama3.2:1b"⟩) ∧
    (pyStrTake (queryContext [⟨0, "cat", "d"⟩] "cat" 3) 200).length ≤
      200) :=
  ⟨by decide,
    transport_failure_degraded [⟨0, "cat", "d"⟩] "cat" 3 0.3 "boom"
      (by decide)⟩

/-- **C8 (confirmed).**  Two query requests identical except for
`temperature` lead to the same gateway payload (model, prompt, stream)
and the same overall behavior: the `temperature` field is accepted but
never forwarded.  This is definitional — the handler never reads the
field. -/
theorem temperature_not_forwarded (documents : List Chunk)
    (q : String) (k : Int) (t1 t2 : Float) (gw : GatewayOutcome) :
    query_document documents ⟨q, k, t1⟩ gw =
      query_document documents ⟨q, k, t2⟩ gw := rfl

/-- **C9 (confirmed).**  On every successful query the model sent to
the gateway is `"qwen2.5:0.5b"` while the response reports
`"llama3.2:1b"`; the reported model never matches the invoked one. -/
theorem reported_model_differs (documents : List Chunk) (q : String)
    (k : Int) (t : Float) (gw : GatewayOutcome)
    (payload : GatewayRequest) (resp : QueryResponse)
    (hok : query_document documents ⟨q, k, t⟩ gw =
      .ok (payload, resp)) :
    payload.model = "qwen2.5:0.5b" ∧ resp.model = "llama3.2:1b" ∧
      payload.model ≠ resp.model := by
  unfold query_document at hok
  split at hok
  · exact absurd hok (by simp)
  · simp only [Except.ok.injEq, Prod.mk.injEq] at hok
    have h1 : payload.model = "qwen2.5:0.5b" := by rw [← hok.1]
    have h2 : resp.model = "llama3.2:1b" := by rw [← hok.2]
    refine ⟨h1, h2, ?_⟩
    rw [h1, h2]
    decide

/-- Witness for `reported_model_differs`: an empty store, question
`"hi"`, and a successful gateway response `"ok"`. -/
theorem reported_model_differs_witness :
    query_document [] ⟨"hi", 3, 0.3⟩ (.response 200 (some "ok")) =
      .ok (⟨"qwen2.5:0.5b", "Context: \n\nQuestion: hi\n\nAnswer:",
          false⟩,
        ⟨"hi", "ok", 0, 0, "llama3.2:1b"⟩) ∧
    (GatewayRequest.model ⟨"qwen2.5:0.5b",
        "Context: \n\nQuestion: hi\n\nAnswer:", false⟩ =
      "qwen2.5:0.5b" ∧
    QueryResponse.model ⟨"hi", "ok", 0, 0, "llama3.2:1b"⟩ =
      "llama3.2:1b" ∧
    GatewayRequest.model ⟨"qwen2.5:0.5b",
        "Context: \n\nQuestion: hi\n\nAnswer:", false⟩ ≠
      QueryResponse.model ⟨"hi", "ok", 0, 0, "llama3.2:1b"⟩) :=
  ⟨by decide,
    reported_model_differs [] "hi" 3 0.3 (.response 200 (some "ok"))
      ⟨"qwen2.5:0.5b", "Context: \n\nQuestion: hi\n\nAnswer:", false⟩
      ⟨"hi", "ok", 0, 0, "llama3.2:1b"⟩ (by decide)⟩

/-- **C10 (confirmed).**  A negative `top_k = -n` (`n > 0`) is not
rejected: the query still succeeds, and the returned chunks are the
sorted qualifying chunks with the last `n` dropped (Python slice
`scored_chunks[:-n]`). -/
theorem negative_top_k_drops_last (documents : List Chunk)
    (q : String) (n : Nat) (t : Float) (gw : GatewayOutcome)
    (hq : pyStrip q ≠ "") (hn : 0 < n) :
    (query_document documents ⟨q, -(n : Int), t⟩ gw).isOk = true ∧
    topChunks documents q (-(n : Int)) =
      ((sortDesc (scoredChunks documents q)).map Prod.fst).take
        ((sortDesc (scoredChunks documents q)).length - n) := by
  constructor
  · simp [query_document, hq, Except.isOk, Except.toBool]
  · unfold topChunks pySliceTo
    rw [if_neg (by omega)]
    have h1 : (((sortDesc (scoredChunks documents q)).length : Int) +
        -(n : Int)).toNat =
        (sortDesc (scoredChunks documents q)).length - n := by omega
    rw [h1, List.map_take]

/-- Witness for `negative_top_k_drops_last`: two qualifying chunks and
`top_k = -1` return only the better-scoring one. -/
theorem negative_top_k_drops_last_witness :
    (pyStrip "cat dog" ≠ "" ∧ 0 < 1) ∧
    ((query_document [⟨0, "cat", "d"⟩, ⟨1, "cat dog", "d"⟩]
        ⟨"cat dog", -(1 : Int), 0.3⟩
        (.response 200 (some "ok"))).isOk = true ∧
    topChunks [⟨0, "cat", "d"⟩, ⟨1, "cat dog", "d"⟩] "cat dog"
        (-(1 : Int)) =
      ((sortDesc (scoredChunks [⟨0, "cat", "d"⟩, ⟨1, "cat dog", "d"⟩]
          "cat dog")).map Prod.fst).take
        ((sortDesc (scoredChunks [⟨0, "cat", "d"⟩, ⟨1, "cat dog", "d"⟩]
          "cat dog")).length - 1)) :=
  ⟨⟨by decide, by decide⟩,
    negative_top_k_drops_last [⟨0, "cat", "d"⟩, ⟨1, "cat dog", "d"⟩]
      "cat dog" 1 0.3 (.response 200 (some "ok")) (by decide)
      (by decide)⟩

end PdfRag
